import Mathlib

set_option maxRecDepth 100000

/-!
Shallow embedding of `src/streamlit_app.py` (function `load_react_app`).

Strings are modelled as `List Char`.  The filesystem state that the
function reads (existence of the build directory, of `dist/index.html`,
of `dist/assets`, the listing of the assets directory in `os.listdir`
order together with each file's contents, and the text of `index.html`)
is a structure `FS`.  Environment variables and the Streamlit secrets
store are a structure `Env`, with `none` meaning the variable is unset.

The two regular-expression patterns built at lines 42 and 51 of the
source use only: case-insensitive literal characters (`re.IGNORECASE`
applies to the whole pattern, and `re.escape` turns the file name into
literal characters), negated single-character classes `[^>]` and
`[^\x22]`, the universal class `[\s\S]`, greedy `+` and `*`, and lazy
`*?`.  Every quantifier is applied to a single-character class, so a
match of `e*` at a point consumes some prefix of the maximal run of
characters matching `e`; greedy quantifiers try the longest such prefix
first, lazy ones the shortest, with full backtracking into the rest of
the pattern.  `matchSeq` below implements exactly that order.
`pattern.sub` (Python) replaces each leftmost non-overlapping match,
scanning left to right; `subAll` implements it.  The replacement
argument in the source is a lambda returning a constant string, so the
replacement text is used verbatim.  `str.replace` (line 69) is the
case-sensitive replace-all `strReplace`.
-/

/-- A single-character class of the patterns in the source:
`any` is `[\s\S]`, `notOf cs` is a negated class such as `[^>]`,
`litCI c` is a literal character under `re.IGNORECASE`. -/
inductive CClass where
  | any : CClass
  | notOf (cs : List Char) : CClass
  | litCI (c : Char) : CClass
deriving DecidableEq, Repr

/-- One item of a pattern: a single-character class, possibly under a
greedy `*` or `+` or a lazy `*?` quantifier. -/
inductive RItem where
  | one (c : CClass) : RItem
  | starG (c : CClass) : RItem
  | plusG (c : CClass) : RItem
  | starL (c : CClass) : RItem
deriving DecidableEq, Repr

/-- Does character `x` match the single-character class `c`?
`re.IGNORECASE` on ASCII compares characters after lower-casing. -/
def cmatch : CClass → Char → Bool
  | CClass.any, _ => true
  | CClass.notOf cs, x => !(cs.contains x)
  | CClass.litCI c, x => c.toLower == x.toLower

/-- Backtracking matcher for a sequence of pattern items, anchored at
the start of `s`.  Returns the remainder of `s` after the match that
the Python engine selects (greedy quantifiers longest-first, lazy
shortest-first, full backtracking), or `none` if no match starts here. -/
def matchSeq : List RItem → List Char → Option (List Char)
  | [], s => some s
  | RItem.one c :: rest, s =>
    match s with
    | [] => none
    | x :: s2 => if cmatch c x then matchSeq rest s2 else none
  | RItem.starG c :: rest, s =>
    let m := (s.takeWhile (fun x => cmatch c x)).length
    (List.range (m + 1)).findSome? (fun j => matchSeq rest (s.drop (m - j)))
  | RItem.plusG c :: rest, s =>
    let m := (s.takeWhile (fun x => cmatch c x)).length
    (List.range m).findSome? (fun j => matchSeq rest (s.drop (m - j)))
  | RItem.starL c :: rest, s =>
    let m := (s.takeWhile (fun x => cmatch c x)).length
    (List.range (m + 1)).findSome? (fun k => matchSeq rest (s.drop k))

/-- `subAux pat repl fuel s`: replace each leftmost non-overlapping
match of `pat` in `s` by `repl`, scanning left to right, as
`re.Pattern.sub` does.  `fuel` bounds the recursion; `subAll` supplies
`s.length`, which suffices because every step either consumes a
character or consumes a non-empty match. -/
def subAux (pat : List RItem) (repl : List Char) : Nat → List Char → List Char
  | _, [] => []
  | 0, s => s
  | Nat.succ fuel, x :: tail =>
    match matchSeq pat (x :: tail) with
    | some rem =>
      if rem.length < tail.length + 1 then repl ++ subAux pat repl fuel rem
      else repl ++ x :: subAux pat repl fuel tail
    | none => x :: subAux pat repl fuel tail

/-- `pattern.sub(repl, s)` of the source for the two patterns used
there (a constant replacement string). -/
def subAll (pat : List RItem) (repl : List Char) (s : List Char) : List Char :=
  subAux pat repl s.length s

/-- Is `needle` a prefix of `hay`? -/
def startsWithL : List Char → List Char → Bool
  | [], _ => true
  | _ :: _, [] => false
  | a :: ns, b :: hs => a == b && startsWithL ns hs

/-- Does `hay` contain `needle` as a contiguous substring? -/
def containsSub (needle : List Char) : List Char → Bool
  | [] => startsWithL needle []
  | x :: rest => startsWithL needle (x :: rest) || containsSub needle rest

/-- Does `hay` end with `needle`?  Models Python `str.endswith`. -/
def endsWithL (needle hay : List Char) : Bool :=
  startsWithL needle.reverse hay.reverse

/-- `replaceAux tgt repl fuel s`: Python `str.replace` for a non-empty
`tgt`, scanning left to right and replacing each non-overlapping
occurrence.  `fuel = s.length` suffices since `tgt` is non-empty. -/
def replaceAux (tgt repl : List Char) : Nat → List Char → List Char
  | _, [] => []
  | 0, s => s
  | Nat.succ fuel, x :: tail =>
    if startsWithL tgt (x :: tail) then
      repl ++ replaceAux tgt repl fuel ((x :: tail).drop tgt.length)
    else x :: replaceAux tgt repl fuel tail

/-- Python `s.replace(tgt, repl)`.  The empty-target branch mirrors
Python (`repl` inserted before every character and at the end); the
source only calls this with the non-empty target `</head>`. -/
def strReplace (tgt repl s : List Char) : List Char :=
  if tgt = [] then repl ++ s.flatMap (fun c => c :: repl)
  else replaceAux tgt repl s.length s

/-- Literal characters of a pattern fragment, case-insensitive under
`re.IGNORECASE`. -/
def lits (s : String) : List RItem :=
  s.toList.map (fun c => RItem.one (CClass.litCI c))

/-- Line 42 of the source:
`<link[^>]+href="[^\x22]*{re.escape(css_file)}"[^>]*>` with
`re.IGNORECASE`.  `re.escape` makes every character of the file name a
literal, hence the name contributes literal items built from its own
characters. -/
def cssPattern (name : List Char) : List RItem :=
  lits "<link" ++ [RItem.plusG (CClass.notOf ['>'])]
    ++ lits "href=\"" ++ [RItem.starG (CClass.notOf ['"'])]
    ++ name.map (fun c => RItem.one (CClass.litCI c))
    ++ lits "\"" ++ [RItem.starG (CClass.notOf ['>'])] ++ lits ">"

/-- Line 51 of the source:
`<script[^>]+src="[^\x22]*{re.escape(js_file)}"[^>]*>[\s\S]*?</script>`
with `re.IGNORECASE`. -/
def jsPattern (name : List Char) : List RItem :=
  lits "<script" ++ [RItem.plusG (CClass.notOf ['>'])]
    ++ lits "src=\"" ++ [RItem.starG (CClass.notOf ['"'])]
    ++ name.map (fun c => RItem.one (CClass.litCI c))
    ++ lits "\"" ++ [RItem.starG (CClass.notOf ['>'])] ++ lits ">"
    ++ [RItem.starL CClass.any] ++ lits "</script>"

/-- Line 43 replacement: `<style>{css_content}</style>`. -/
def cssRepl (content : List Char) : List Char :=
  "<style>".toList ++ content ++ "</style>".toList

/-- Line 52 replacement: `<script type="module">{js_content}</script>`. -/
def jsRepl (content : List Char) : List Char :=
  "<script type=\"module\">".toList ++ content ++ "</script>".toList

/-- The filesystem state read by `load_react_app`:  whether `dist`
exists, whether `dist/index.html` exists and its text, whether
`dist/assets` exists, and the `(name, contents)` pairs of the files in
`dist/assets` in `os.listdir` order. -/
structure FS where
  buildDirExists : Bool
  indexExists : Bool
  indexContent : List Char
  assetsDirExists : Bool
  assetFiles : List (List Char × List Char)
deriving DecidableEq, Repr

/-- Environment variables and Streamlit secrets read at lines 57-58;
`none` means unset (Python `os.environ.get` returning `None`, and the
secrets store lacking the key so that `.get(k, "")` yields its
default). -/
structure Env where
  apiKey : Option (List Char)
  deepseekKey : Option (List Char)
  secretsApiKey : Option (List Char)
  secretsDeepseekKey : Option (List Char)
deriving DecidableEq, Repr

/-- Lines 57-58: `os.environ.get(k) or st.secrets.get(k, "")`.
Python `or` takes the right operand when the left is `None` or the
empty string. -/
def resolveKey (envVal secVal : Option (List Char)) : List Char :=
  match envVal with
  | some v => if v = [] then secVal.getD [] else v
  | none => secVal.getD []

/-- The user-visible message of line 18. -/
def buildNotFoundMsg : List Char :=
  "React build not found. If you are on Render, ensure the build command \x27npm run build\x27 completed successfully.".toList

/-- The user-visible message of line 24. -/
def indexNotFoundMsg : List Char :=
  "index.html not found in dist folder.".toList

/-- The literal `</head>` of line 69. -/
def headClose : List Char := "</head>".toList

/-- Lines 61-68: the injection script f-string, byte for byte (the
line reading `directly ` ends in a space in the source). -/
def injScript (gemini_key deepseek_key : List Char) : List Char :=
  "\n    <script>\n        window.DEEPSEEK_API_KEY = \"".toList
    ++ deepseek_key
    ++ "\";\n        // Note: Gemini SDK usually reads process.env.API_KEY directly \n        // if configured in your bundler (Vite), but we inject for safety.\n        window.API_KEY = \"".toList
    ++ gemini_key
    ++ "\";\n    </script>\n    ".toList

/-- The observable outcome of one call of `load_react_app`: either
`st.error msg` followed by an early return, or
`st.components.v1.html html` with the assembled document. -/
inductive Result where
  | error (msg : List Char) : Result
  | render (html : List Char) : Result
deriving DecidableEq, Repr

/-- Lines 27-69 of the source: the document transformations performed
once both existence checks have passed.  CSS inlining (lines 36-43,
for each listed `.css` file in order), JS inlining (lines 46-52), key
resolution (lines 57-58) and key injection (line 69). -/
def assembleHtml (fs : FS) (env : Env) : List Char :=
  let html0 := fs.indexContent
  let html1 :=
    if fs.assetsDirExists then
      let cssFiles := fs.assetFiles.filter (fun p => endsWithL ".css".toList p.1)
      let afterCss :=
        cssFiles.foldl (fun h p => subAll (cssPattern p.1) (cssRepl p.2) h) html0
      let jsFiles := fs.assetFiles.filter (fun p => endsWithL ".js".toList p.1)
      jsFiles.foldl (fun h p => subAll (jsPattern p.1) (jsRepl p.2) h) afterCss
    else html0
  let gemini_key := resolveKey env.apiKey env.secretsApiKey
  let deepseek_key := resolveKey env.deepseekKey env.secretsDeepseekKey
  let injection_script := injScript gemini_key deepseek_key
  strReplace headClose (injection_script ++ headClose) html1

/-- `load_react_app` (lines 12-74): the existence checks of lines 17
and 23 with their early-return error messages, then the document
assembly and the rendering call of line 74. -/
def load_react_app (fs : FS) (env : Env) : Result :=
  if !fs.buildDirExists then Result.error buildNotFoundMsg
  else if !fs.indexExists then Result.error indexNotFoundMsg
  else Result.render (assembleHtml fs env)

/-! ## Concrete scenarios used by the claim theorems -/

/-- An environment with no variables and no secrets set. -/
def envNone : Env := ⟨none, none, none, none⟩

/-- Minimal entry HTML with one style-link tag referencing `app.css`
(attribute order with `href` first, exercising the tolerant pattern). -/
def htmlC1 : List Char :=
  "<html><head><link href=\"assets/app.css\" rel=\"stylesheet\"></head><body>Home</body></html>".toList

/-- Build present, entry present, assets directory holding one CSS
file `app.css` with known contents. -/
def fsC1 : FS :=
  ⟨true, true, htmlC1, true, [("app.css".toList, "body color red".toList)]⟩

/-- Entry HTML with one script tag referencing `app.js`, carrying an
extra attribute and inner fallback content before its closing tag. -/
def htmlC2 : List Char :=
  "<html><head></head><body><script defer src=\"assets/app.js\">fallback text</script></body></html>".toList

/-- Build present, entry present, assets directory holding one JS
file `app.js` with known contents. -/
def fsC2 : FS :=
  ⟨true, true, htmlC2, true, [("app.js".toList, "console log hi".toList)]⟩

/-- Entry HTML for the key-injection scenario: a head section and a
body, no asset references. -/
def htmlC3 : List Char :=
  "<html><head><title>T</title></head><body></body></html>".toList

/-- Build and entry present, no assets directory. -/
def fsC3 : FS := ⟨true, true, htmlC3, false, []⟩

/-- Environment with `API_KEY="abc"` and `DEEPSEEK_API_KEY=""`
(set but empty), and no secrets. -/
def envC3 : Env := ⟨some "abc".toList, some [], none, none⟩

/-- A state with no build directory. -/
def fsNoBuild : FS := ⟨false, false, [], false, []⟩

/-- A state with the build directory but no `index.html`. -/
def fsNoIndex : FS := ⟨true, false, [], false, []⟩

/-- A state passing both existence checks. -/
def fsPass : FS := ⟨true, true, "<p>x</p>".toList, false, []⟩

/-- Entry HTML with two link tags: one referencing the literal name
`a+(1).b.css` (full of regex metacharacters) and one referencing
`a+(1)Xb.css`, which an unescaped pattern would also match since `.`
would act as a wildcard. -/
def htmlC5 : List Char :=
  "<html><head><link href=\"assets/a+(1).b.css\" rel=\"y\"><link href=\"assets/a+(1)Xb.css\" rel=\"z\"></head><body></body></html>".toList

/-- Assets directory holding the metacharacter-named CSS file. -/
def fsC5 : FS :=
  ⟨true, true, htmlC5, true, [("a+(1).b.css".toList, "cssbody".toList)]⟩

/-- Entry HTML whose link tag uses an unquoted `href` value, which the
pattern (requiring `href="`) does not tolerate. -/
def htmlC6 : List Char :=
  "<html><head><link rel=\"stylesheet\" href=assets/app.css></head><body></body></html>".toList

/-- Assets directory holding `app.css` while the entry references it
only through the unquoted tag. -/
def fsC6 : FS :=
  ⟨true, true, htmlC6, true, [("app.css".toList, "xcss".toList)]⟩

/-- A state for instantiating the determinism claim. -/
def fsC7 : FS :=
  ⟨true, true, "<head></head>".toList, true, [("a.css".toList, "c".toList)]⟩

/-- Entry HTML containing two occurrences of `</head>`. -/
def htmlC8a : List Char := "<html><head>A</head>mid</head>end".toList

/-- Build and entry present around `htmlC8a`, no assets. -/
def fsC8a : FS := ⟨true, true, htmlC8a, false, []⟩

/-- Entry HTML whose head closes only as uppercase `</HEAD>`, so the
case-sensitive `str.replace` target never occurs. -/
def htmlC8b : List Char := "<html><HEAD>x</HEAD><body></body></html>".toList

/-- Build and entry present around `htmlC8b`, no assets. -/
def fsC8b : FS := ⟨true, true, htmlC8b, false, []⟩

/-- Entry HTML with both a link and a script tag, used when the assets
directory is absent. -/
def htmlC10 : List Char :=
  "<html><head><link href=\"assets/app.css\" rel=\"s\"></head><body><script src=\"assets/app.js\"></script></body></html>".toList

/-- Build and entry present, assets directory absent. -/
def fsC10 : FS := ⟨true, true, htmlC10, false, []⟩

/-! ## Claim theorems -/

/-- C1: for the minimal entry HTML with one link tag referencing the
`.css` asset, the assembled output contains the literal CSS text inside
a style block and contains neither the original link tag nor the
filename. -/
theorem css_link_inlined_minimal_entry :
    ∃ h, load_react_app fsC1 envNone = Result.render h
      ∧ containsSub ("<style>body color red</style>".toList) h = true
      ∧ containsSub ("<link href=\"assets/app.css\" rel=\"stylesheet\">".toList) h = false
      ∧ containsSub ("app.css".toList) h = false := by
  refine ⟨_, rfl, ?_, ?_, ?_⟩ <;> rfl

/-- C2: the whole script tag referencing the `.js` asset, inner content
and closing `</script>` included, is replaced by an inline module
script block holding the file contents. -/
theorem js_script_tag_fully_replaced :
    ∃ h, load_react_app fsC2 envNone = Result.render h
      ∧ containsSub ("<script type=\"module\">console log hi</script>".toList) h = true
      ∧ containsSub ("app.js".toList) h = false
      ∧ containsSub ("fallback text".toList) h = false := by
  refine ⟨_, rfl, ?_, ?_, ?_⟩ <;> rfl

/-- C3: with `API_KEY="abc"` and `DEEPSEEK_API_KEY=""` in the
environment and no secrets, the output document is the entry HTML with
the injection script inserted immediately before the closing head tag,
and that script block sets `window.API_KEY` to `"abc"` and
`window.DEEPSEEK_API_KEY` to `""`. -/
theorem key_injection_before_head_close :
    ∃ pre post, load_react_app fsC3 envC3
        = Result.render (pre ++ injScript ("abc".toList) [] ++ headClose ++ post)
      ∧ containsSub headClose pre = false
      ∧ containsSub ("window.API_KEY = \"abc\";".toList) (injScript ("abc".toList) []) = true
      ∧ containsSub ("window.DEEPSEEK_API_KEY = \"\";".toList) (injScript ("abc".toList) []) = true := by
  refine ⟨"<html><head><title>T</title>".toList, "<body></body></html>".toList, ?_, ?_, ?_, ?_⟩ <;> rfl

/-- C4: exactly the two checked failure kinds exist.  A missing build
directory yields the build-not-found message and no rendering call; a
present build directory with a missing entry file yields the
entry-file message and no rendering call; every state passing both
checks reaches the rendering call and emits no error message. -/
theorem failure_taxonomy :
    (∀ fs env, fs.buildDirExists = false →
        load_react_app fs env = Result.error buildNotFoundMsg)
    ∧ (∀ fs env, fs.buildDirExists = true → fs.indexExists = false →
        load_react_app fs env = Result.error indexNotFoundMsg)
    ∧ (∀ fs env, fs.buildDirExists = true → fs.indexExists = true →
        ∃ h, load_react_app fs env = Result.render h) := by
  refine ⟨?_, ?_, ?_⟩
  · intro fs env h; simp [load_react_app, h]
  · intro fs env h1 h2; simp [load_react_app, h1, h2]
  · intro fs env h1 h2
    refine ⟨assembleHtml fs env, ?_⟩
    unfold load_react_app
    rw [h1, h2]
    simp

/-- C4 witness: the taxonomy instantiated at three concrete states. -/
theorem failure_taxonomy_witness :
    load_react_app fsNoBuild envNone = Result.error buildNotFoundMsg
    ∧ load_react_app fsNoIndex envNone = Result.error indexNotFoundMsg
    ∧ ∃ h, load_react_app fsPass envNone = Result.render h :=
  ⟨failure_taxonomy.1 fsNoBuild envNone rfl,
   failure_taxonomy.2.1 fsNoIndex envNone rfl rfl,
   failure_taxonomy.2.2 fsPass envNone rfl rfl⟩

/-- C5: with an asset named `a+(1).b.css`, the tag referencing the
literal filename is replaced by the style block, while the tag
referencing `a+(1)Xb.css` — which would match if `.` were an unescaped
wildcard — is left untouched: the metacharacters are matched
literally. -/
theorem special_chars_in_filename_matched_literally :
    ∃ h, load_react_app fsC5 envNone = Result.render h
      ∧ containsSub ("<style>cssbody</style>".toList) h = true
      ∧ containsSub ("a+(1).b.css".toList) h = false
      ∧ containsSub ("<link href=\"assets/a+(1)Xb.css\" rel=\"z\">".toList) h = true := by
  refine ⟨_, rfl, ?_, ?_, ?_⟩ <;> rfl

/-- C6: when the tag referencing the asset does not match the pattern,
the substitution step leaves the document text unchanged — the output
is exactly the entry HTML with only the key injection applied, the
original tag still present, no style block inserted, and no error. -/
theorem unmatched_tag_silently_left_in_place :
    load_react_app fsC6 envNone
      = Result.render (strReplace headClose (injScript [] [] ++ headClose) htmlC6)
    ∧ containsSub ("<link rel=\"stylesheet\" href=assets/app.css>".toList)
        (strReplace headClose (injScript [] [] ++ headClose) htmlC6) = true
    ∧ containsSub ("<style>".toList)
        (strReplace headClose (injScript [] [] ++ headClose) htmlC6) = false
    ∧ containsSub ("xcss".toList)
        (strReplace headClose (injScript [] [] ++ headClose) htmlC6) = false :=
  ⟨rfl, rfl, rfl, rfl⟩

/-- C7: assembly is deterministic — two runs over the same filesystem
state (same listings and contents) and the same environment and
secrets values produce the identical outcome, byte for byte.  The
embedding makes `load_react_app` a total function of exactly the
modelled inputs (the source reads nothing else: no clock, no
randomness), so equal inputs give equal outputs. -/
theorem assembly_deterministic :
    ∀ fs1 fs2 env1 env2, fs1 = fs2 → env1 = env2 →
      load_react_app fs1 env1 = load_react_app fs2 env2 := by
  intro fs1 fs2 env1 env2 h1 h2
  rw [h1, h2]

/-- C7 witness: determinism instantiated at a concrete state. -/
theorem assembly_deterministic_witness :
    load_react_app fsC7 envNone = load_react_app fsC7 envNone :=
  assembly_deterministic fsC7 fsC7 envNone envNone rfl rfl

/-- C8: the injection script is inserted before every occurrence of
the exact substring `</head>` (here, both of them), and when the entry
contains no such substring (here only uppercase `</HEAD>`), the
document is returned unchanged and the keys never appear in it. -/
theorem head_injection_every_occurrence_case_sensitive :
    load_react_app fsC8a envNone
      = Result.render ("<html><head>A".toList ++ injScript [] [] ++ headClose
          ++ "mid".toList ++ injScript [] [] ++ headClose ++ "end".toList)
    ∧ load_react_app fsC8b envNone = Result.render htmlC8b
    ∧ containsSub ("window.API_KEY".toList) htmlC8b = false :=
  ⟨rfl, rfl, rfl⟩

/-- C9: lines 57-58 treat an environment variable set to the empty
string exactly like an unset one — both fall back to the secrets-store
value, which defaults to the empty string only when the store has no
value either.  `load_react_app` resolves both `API_KEY` and
`DEEPSEEK_API_KEY` through this same `resolveKey`. -/
theorem empty_env_var_same_as_unset :
    ∀ sec : Option (List Char),
      resolveKey (some []) sec = resolveKey none sec
      ∧ resolveKey none sec = sec.getD [] := by
  intro sec
  cases sec <;> exact ⟨rfl, rfl⟩

/-- C10: when the build directory and entry file exist but the assets
directory does not, both inlining steps are skipped without any error:
the output is exactly the entry text with only the key injection
applied, and the rendering call still happens. -/
theorem missing_assets_dir_skips_inlining :
    ∀ fs env, fs.buildDirExists = true → fs.indexExists = true →
      fs.assetsDirExists = false →
      load_react_app fs env = Result.render
        (strReplace headClose
          (injScript (resolveKey env.apiKey env.secretsApiKey)
            (resolveKey env.deepseekKey env.secretsDeepseekKey) ++ headClose)
          fs.indexContent) := by
  intro fs env h1 h2 h3
  simp [load_react_app, assembleHtml, h1, h2, h3]

/-- C10 witness: the skip instantiated at a concrete state whose entry
HTML still holds a link tag and a script tag. -/
theorem missing_assets_dir_skips_inlining_witness :
    load_react_app fsC10 envNone = Result.render
      (strReplace headClose
        (injScript (resolveKey envNone.apiKey envNone.secretsApiKey)
          (resolveKey envNone.deepseekKey envNone.secretsDeepseekKey) ++ headClose)
        fsC10.indexContent) :=
  missing_assets_dir_skips_inlining fsC10 envNone rfl rfl rfl
